import Mathlib

/-!
Shallow embedding of the League-Analyzer repository (src/utility.py, src/main.py).

The repository fetches ranked-ladder player data from the Riot API and stores
player records in SQLite.  The pure parts (URL builders, dictionaries) are
translated directly; the effectful parts (HTTP fetch, retry loop, orchestrator)
are modelled by explicit scripted responses: each mocked endpoint is a list of
the responses the server returns on successive attempts, and the run functions
return the observable trace (requests issued, seconds slept, counter
increments, rows passed to storage) together with the outcome.
-/

namespace LeagueAnalyzer

/-- Error kinds of the program.  Each `raise ValueError(...)` / fatal `exit()`
site in `utility.py` maps to one constructor:
`invalidRegion` = "The region is invalid" (region_to_url),
`invalidDivision` = "Division is invalid" (tier_to_url),
`invalidTier` = "Tier is invalid" (tier_to_url),
`tierDivisionConflict` = "You cannot have tier {tier} with a division" (tier_to_url),
`unexpectedStatus code` = the non-200 print-and-exit paths,
`malformedResponse` = the KeyError on a missing "entries" field,
`indexError` = the IndexError from `data[0]` in insert_into_table on empty data. -/
inductive Err where
  | invalidRegion
  | invalidDivision
  | invalidTier
  | tierDivisionConflict
  | unexpectedStatus (code : Nat)
  | malformedResponse
  | indexError
deriving DecidableEq, Repr

instance {ε α : Type} [DecidableEq ε] [DecidableEq α] : DecidableEq (Except ε α) :=
  fun a b =>
    match a, b with
    | .ok x, .ok y => decidable_of_iff (x = y) (by simp)
    | .error x, .error y => decidable_of_iff (x = y) (by simp)
    | .ok _, .error _ => isFalse (by simp)
    | .error _, .ok _ => isFalse (by simp)

/-- `region_dict` from utility.py lines 98-114: region code → base API URL. -/
def region_dict : List (String × String) :=
  [ ("NA", "https://na1.api.riotgames.com"),
    ("EUW", "https://euw1.api.riotgames.com"),
    ("EUN", "https://eun1.api.riotgames.com"),
    ("BR", "https://br1.api.riotgames.com"),
    ("JP", "https://jp1.api.riotgames.com"),
    ("KR", "https://kr.api.riotgames.com"),
    ("LA", "https://la1.api.riotgames.com"),
    ("OC", "https://oc1.api.riotgames.com"),
    ("TR", "https://tr1.api.riotgames.com"),
    ("RU", "https://ru.api.riotgames.com"),
    ("PH", "https://ph2.api.riotgames.com"),
    ("SG", "https://sg2.api.riotgames.com"),
    ("TH", "https://th2.api.riotgames.com"),
    ("TW", "https://tw2.api.riotgames.com"),
    ("VN", "https://vn2.api.riotgames.com") ]

/-- `division_dict` from utility.py line 116: division code → Roman numeral. -/
def division_dict : List (String × String) :=
  [("1", "I"), ("2", "II"), ("3", "III"), ("4", "IV"), ("", "")]

/-- `tier_set` from utility.py lines 118-130: the valid tiers. -/
def tier_set : List String :=
  ["iron", "bronze", "silver", "gold", "platinum", "diamond",
   "master", "grandmaster", "challenger"]

/-- ASCII lower-casing of one character, the effect of Python's `str.lower()`
on the ASCII inputs this program handles. -/
def charToLower (c : Char) : Char :=
  if 65 ≤ c.toNat ∧ c.toNat ≤ 90 then Char.ofNat (c.toNat + 32) else c

/-- Python's `str.lower()`: lower-case every character. -/
def strToLower (s : String) : String := String.mk (s.data.map charToLower)

/-- `region_to_url` (utility.py lines 142-147): dictionary lookup, raising
"The region is invalid" when the code is absent. -/
def region_to_url (region : String) : Except Err String :=
  match region_dict.lookup region with
  | some url => .ok url
  | none => .error .invalidRegion

/-- `tier_to_url` (utility.py lines 150-168).  Lower-cases the tier, validates
the division against `division_dict` (raising `invalidDivision`), maps it to
its Roman numeral, validates the tier against `tier_set` (raising
`invalidTier`), rejects a top tier combined with a non-empty division
(raising `tierDivisionConflict`), and otherwise builds either the
division-less top-league path or the paginated entries path. -/
def tier_to_url (tier : String) (division : String := "") (page : String := "1") :
    Except Err String :=
  let tier := strToLower tier
  let is_top_league :=
    tier == "master" || tier == "grandmaster" || tier == "challenger"
  match division_dict.lookup division with
  | none => .error .invalidDivision
  | some division =>
    if ¬ tier_set.contains tier then .error .invalidTier
    else if is_top_league && division != "" then .error .tierDivisionConflict
    else if is_top_league then
      .ok ("/lol/league/v4/" ++ tier ++ "leagues/by-queue/RANKED_SOLO_5x5")
    else
      .ok ("/lol/league/v4/entries/RANKED_SOLO_5x5/" ++ tier ++ "/" ++ division
            ++ "?page=" ++ page)

/-- `create_tier_url` (utility.py lines 230-238): region base plus the
tier path with the default division "" and page "1"; a `ValueError` from
either builder is a fatal exit, modelled by propagating the error. -/
def create_tier_url (region : String := "NA") (tier : String := "Master") :
    Except Err String := do
  let region_url ← region_to_url region
  let tier_url ← tier_to_url tier
  return region_url ++ tier_url

/-- `create_puuid_url` (utility.py lines 241-249): region base plus the
per-summoner lookup path. -/
def create_puuid_url (summonerId : String) (region : String := "NA") :
    Except Err String := do
  let region_url ← region_to_url region
  let summoner_url := "/lol/summoner/v4/summoners/" ++ summonerId
  return region_url ++ summoner_url

/-- One item of the listing response's "entries" array, as consumed by
`create_summoner_to_id_table` (utility.py lines 284-286). -/
structure LadderEntry where
  summonerId : String
  summonerName : String
deriving DecidableEq, Repr

/-- A scripted response to the ladder-listing GET.  `entries = none` models a
JSON body with no "entries" key (the `response_dict["entries"]` KeyError
path); the listing code never reads headers, so none are modelled. -/
structure ListingResponse where
  status : Nat
  entries : Option (List LadderEntry)
deriving DecidableEq, Repr

/-- A scripted response to one per-player lookup GET.  `retryAfter` is the
Retry-After header, read only on status 429; `puuid`/`accountId` are the JSON
body fields, read only on status 200. -/
structure LookupResponse where
  status : Nat
  retryAfter : Nat
  puuid : String
  accountId : String
deriving DecidableEq, Repr

/-- Result of a `get_id_summoner` call chain. -/
inductive LookupOutcome where
  /-- A 200 response: returns (puuid, accountId). -/
  | ok (puuid accountId : String)
  /-- A status other than 200 and 429: print-and-exit (utility.py line 317). -/
  | fatal (code : Nat)
  /-- The scripted response list ran out while the code was still retrying:
  the modelling artifact standing for an unfinished unbounded retry loop. -/
  | starved
deriving DecidableEq, Repr

/-- Observable trace of a `get_id_summoner` call chain: HTTP requests issued,
total seconds slept, increments of `REQUESTS_COUNTER`, and the outcome. -/
structure LookupRun where
  requests : Nat
  sleep : Nat
  counterInc : Nat
  outcome : LookupOutcome
deriving DecidableEq, Repr

/-- `get_id_summoner` (utility.py lines 295-326), driven by the scripted list
of responses the server gives to successive attempts at this summoner's URL.
Each attempt issues one GET.  On 429 it reads Retry-After, sleeps that value
plus 1 second, and recurses on the rest of the script (the unbounded retry);
on any other non-200 it exits fatally; on 200 it increments
`REQUESTS_COUNTER` and returns the body's (puuid, accountId).  The
`create_puuid_url` call at entry re-validates the region, which already
succeeded at orchestrator entry via `create_tier_url`, so it is not
re-modelled here. -/
def get_id_summoner : List LookupResponse → LookupRun
  | [] => { requests := 0, sleep := 0, counterInc := 0, outcome := .starved }
  | r :: rest =>
    if r.status == 429 then
      let wait_time := r.retryAfter + 1
      let sub := get_id_summoner rest
      { requests := sub.requests + 1, sleep := sub.sleep + wait_time,
        counterInc := sub.counterInc, outcome := sub.outcome }
    else if r.status != 200 then
      { requests := 1, sleep := 0, counterInc := 0, outcome := .fatal r.status }
    else
      { requests := 1, sleep := 0, counterInc := 1, outcome := .ok r.puuid r.accountId }

/-- Python's string repetition `s * n`. -/
def pyStrMul (s : String) : Nat → String
  | 0 => ""
  | n + 1 => s ++ pyStrMul s n

/-- `insert_into_table` (utility.py lines 204-227), restricted to its
data-dependent behaviour: it builds the placeholder string from
`len(data[0])` — an IndexError when `data` is empty — and then inserts every
row.  Connection and SQL failures are environment-dependent and not modelled;
on the modelled path the rows inserted are exactly `data`. -/
def insert_into_table (data : List (List String)) : Except Err (List (List String)) :=
  match data.head? with
  | none => .error .indexError
  | some row0 =>
    let tmp := pyStrMul "?, " row0.length
    let _value_string := "(" ++ tmp.dropRight 2 ++ ")"
    .ok data

/-- The persisted unit: the tuple
`(puuid, summonerId, account_id, summonerName, region)` appended to
`formatted_data` (utility.py line 290). -/
structure PlayerRecord where
  puuid : String
  summonerId : String
  accountId : String
  summonerName : String
  region : String
deriving DecidableEq, Repr

/-- The tuple shape in which a PlayerRecord is handed to `insert_into_table`. -/
def PlayerRecord.toRow (p : PlayerRecord) : List String :=
  [p.puuid, p.summonerId, p.accountId, p.summonerName, p.region]

/-- Final status of an orchestrator run. -/
inductive RunOutcome where
  | completed
  | failed (e : Err)
  /-- A lookup's scripted responses ran out mid-retry (see
  `LookupOutcome.starved`). -/
  | diverged
deriving DecidableEq, Repr

/-- Trace of the entry-resolution loop (utility.py lines 284-290). -/
structure ResolveRun where
  requests : Nat
  sleep : Nat
  counterInc : Nat
  records : List PlayerRecord
  failure : Option RunOutcome
deriving DecidableEq, Repr

/-- The `for account in accounts_data` loop of `create_summoner_to_id_table`:
resolve each entry in listing order via `get_id_summoner` and append
`(puuid, summonerId, account_id, summonerName, region)`.  A fatal lookup
terminates the process, so later entries are not visited; the records
accumulated before the failure are the in-memory prefix that is then lost. -/
def resolve_entries (lookups : String → List LookupResponse) (region : String) :
    List LadderEntry → ResolveRun
  | [] => { requests := 0, sleep := 0, counterInc := 0, records := [], failure := none }
  | e :: rest =>
    let run := get_id_summoner (lookups e.summonerId)
    match run.outcome with
    | .ok puuid accountId =>
      let sub := resolve_entries lookups region rest
      { requests := run.requests + sub.requests, sleep := run.sleep + sub.sleep,
        counterInc := run.counterInc + sub.counterInc,
        records := ⟨puuid, e.summonerId, accountId, e.summonerName, region⟩ :: sub.records,
        failure := sub.failure }
    | .fatal code =>
      { requests := run.requests, sleep := run.sleep, counterInc := run.counterInc,
        records := [], failure := some (.failed (.unexpectedStatus code)) }
    | .starved =>
      { requests := run.requests, sleep := run.sleep, counterInc := run.counterInc,
        records := [], failure := some .diverged }

/-- Observable trace of one orchestrator run: total HTTP requests (listing
included), lookup requests alone, `REQUESTS_COUNTER` increments, seconds
slept, the in-memory `formatted_data` rows, the rows actually inserted into
storage, and the outcome. -/
structure OrchRun where
  httpRequests : Nat
  lookupRequests : Nat
  counterInc : Nat
  sleep : Nat
  formattedData : List PlayerRecord
  insertedRows : List (List String)
  outcome : RunOutcome
deriving DecidableEq, Repr

/-- `create_summoner_to_id_table` (utility.py lines 252-292), driven by a
scripted listing response and, for each summonerId, a scripted list of
lookup responses.  In order: build the listing URL (`create_tier_url`, a
fatal exit on invalid region/tier before any request); issue the listing GET;
exit fatally on any non-200 status (429 included — the listing path has no
retry logic); read `response_dict["entries"]` (KeyError = malformed response
when absent); resolve every entry sequentially; finally create the table and
bulk-insert the assembled rows.  Database connection/creation succeed on the
modelled path. -/
def create_summoner_to_id_table (listing : ListingResponse)
    (lookups : String → List LookupResponse)
    (region : String := "NA") (tier : String := "Master") : OrchRun :=
  match create_tier_url region tier with
  | .error e =>
    { httpRequests := 0, lookupRequests := 0, counterInc := 0, sleep := 0,
      formattedData := [], insertedRows := [], outcome := .failed e }
  | .ok _ =>
    if listing.status != 200 then
      { httpRequests := 1, lookupRequests := 0, counterInc := 0, sleep := 0,
        formattedData := [], insertedRows := [],
        outcome := .failed (.unexpectedStatus listing.status) }
    else
      match listing.entries with
      | none =>
        { httpRequests := 1, lookupRequests := 0, counterInc := 0, sleep := 0,
          formattedData := [], insertedRows := [], outcome := .failed .malformedResponse }
      | some accounts_data =>
        let r := resolve_entries lookups region accounts_data
        match r.failure with
        | some out =>
          { httpRequests := 1 + r.requests, lookupRequests := r.requests,
            counterInc := r.counterInc, sleep := r.sleep,
            formattedData := r.records, insertedRows := [], outcome := out }
        | none =>
          match insert_into_table (r.records.map PlayerRecord.toRow) with
          | .error e =>
            { httpRequests := 1 + r.requests, lookupRequests := r.requests,
              counterInc := r.counterInc, sleep := r.sleep,
              formattedData := r.records, insertedRows := [], outcome := .failed e }
          | .ok rows =>
            { httpRequests := 1 + r.requests, lookupRequests := r.requests,
              counterInc := r.counterInc, sleep := r.sleep,
              formattedData := r.records, insertedRows := rows, outcome := .completed }



/-- The record `create_summoner_to_id_table` assembles for a ladder entry
whose first scripted lookup response answers it: the response body's puuid
and accountId paired with the entry's summonerId and summonerName and the
run's region.  (Spec-side description of the expected output, used to state
the orchestrator theorems.) -/
def expectedRecord (lookups : String → List LookupResponse) (region : String)
    (e : LadderEntry) : PlayerRecord :=
  match lookups e.summonerId with
  | r :: _ => ⟨r.puuid, e.summonerId, r.accountId, e.summonerName, region⟩
  | [] => ⟨"", e.summonerId, "", e.summonerName, region⟩

/-- How many times a lookup chain with the given outcome increments
`REQUESTS_COUNTER`: once on success, never otherwise. -/
def counterOfOutcome : LookupOutcome → Nat
  | .ok _ _ => 1
  | .fatal _ => 0
  | .starved => 0

theorem lookup_eq_none_of_not_mem (l : List (String × String)) (k : String)
    (h : k ∉ l.map Prod.fst) : l.lookup k = none := by
  induction l with
  | nil => rfl
  | cons p t ih =>
    obtain ⟨a, b⟩ := p
    simp only [List.map_cons, List.mem_cons, not_or] at h
    have hne : (k == a) = false := by simp [h.1]
    simp [List.lookup_cons, hne, ih h.2]

theorem exists_lookup_of_mem (l : List (String × String)) (k : String)
    (h : k ∈ l.map Prod.fst) : ∃ v, l.lookup k = some v := by
  induction l with
  | nil => simp at h
  | cons p t ih =>
    obtain ⟨a, b⟩ := p
    rcases eq_or_ne k a with rfl | hne
    · exact ⟨b, by simp [List.lookup_cons]⟩
    · simp only [List.map_cons, List.mem_cons] at h
      rcases h with h | h
      · exact absurd h hne
      · obtain ⟨v, hv⟩ := ih h
        have hb : (k == a) = false := by simp [hne]
        exact ⟨v, by simp [List.lookup_cons, hb, hv]⟩

/-- C3 (amended): `region_to_url` returns a non-empty base endpoint for
exactly the 15 region codes enumerated in `region_dict`, and fails with the
InvalidRegion error for every string outside that 15-element set. -/
theorem C3_corrected :
    (∀ r ∈ region_dict.map Prod.fst, ∃ u, region_to_url r = .ok u ∧ u ≠ "") ∧
    (∀ r : String, r ∉ region_dict.map Prod.fst →
      region_to_url r = .error .invalidRegion) := by
  constructor
  · intro r hr
    fin_cases hr <;> exact ⟨_, rfl, by decide⟩
  · intro r hr
    simp [region_to_url, lookup_eq_none_of_not_mem _ _ hr]

/-- C3 counterexample: the enumerated region table contains 15 pairwise
distinct codes, each mapped by `region_to_url` to a non-empty base URL — the
accepted set has 15 elements, not 14 as the claim states. -/
theorem C3_counterexample :
    (region_dict.map Prod.fst).Nodup ∧ (region_dict.map Prod.fst).length = 15 ∧
    ((region_dict.map Prod.fst).all
      (fun r => match region_to_url r with
        | .ok u => !(u == "")
        | .error _ => false)) = true := by decide

/-- C3 witness: a member region ("NA") is accepted with a non-empty URL and a
non-member ("XX") is rejected with InvalidRegion. -/
theorem C3_witness :
    (∃ u, region_to_url "NA" = .ok u ∧ u ≠ "") ∧
    region_to_url "XX" = .error .invalidRegion :=
  ⟨C3_corrected.1 "NA" (by decide), C3_corrected.2 "XX" (by decide)⟩

/-- C5 counterexample: tier "foo" is outside the tier set, yet with the
invalid division "5" the call fails with InvalidDivision, not InvalidTier —
the division is validated before the tier. -/
theorem C5_counterexample :
    tier_to_url "foo" "5" "1" = .error .invalidDivision ∧
    tier_to_url "foo" "5" "1" ≠ .error .invalidTier := by decide

/-- C5 (amended): for every tier whose lower-cased form is outside the fixed
9-name tier set, and every division accepted by the division table (one of
"", "1", "2", "3", "4"), `tier_to_url` fails with the InvalidTier error; for
a division outside the table it fails with InvalidDivision instead, because
the division is validated first. -/
theorem C5_corrected (tier division page : String)
    (htier : strToLower tier ∉ tier_set)
    (hdiv : division ∈ division_dict.map Prod.fst) :
    tier_to_url tier division page = .error .invalidTier := by
  obtain ⟨d, hd⟩ := exists_lookup_of_mem _ _ hdiv
  simp only [tier_to_url, hd]
  simp [htier]

/-- C5 witness: the invalid tier "foo" with the valid division "1" fails
with InvalidTier. -/
theorem C5_witness : tier_to_url "foo" "1" "1" = .error .invalidTier :=
  C5_corrected "foo" "1" "1" (by decide) (by decide)

/-- C1 and C6: composing the region base URL for "NA" with the listing path
for tier "gold", division "2", page "3" yields exactly the claimed string:
division code "2" is mapped to Roman numeral II and the page is carried as a
query parameter. -/
theorem C6_roundtrip :
    (region_to_url "NA").bind
      (fun base => (tier_to_url "gold" "2" "3").map (fun path => base ++ path)) =
    .ok "https://na1.api.riotgames.com/lol/league/v4/entries/RANKED_SOLO_5x5/gold/II?page=3" := by
  decide

/-- C7: `create_tier_url` for region "KR" and tier "Challenger" yields exactly
the division-less challenger leaderboard URL: the tier is lower-cased and top
tiers map to a fixed path with no page parameter. -/
theorem C7_top_tier_url :
    create_tier_url "KR" "Challenger" =
    .ok "https://kr.api.riotgames.com/lol/league/v4/challengerleagues/by-queue/RANKED_SOLO_5x5" := by
  decide

/-- C8: every tier whose lower-cased form is a top tier ("master",
"grandmaster" or "challenger"), combined with any valid non-empty division
code ("1"-"4"), makes `tier_to_url` fail with the TierDivisionConflict
error, whatever the page argument. -/
theorem C8_conflict (tier division page : String)
    (htop : strToLower tier ∈ (["master", "grandmaster", "challenger"] : List String))
    (hdiv : division ∈ (["1", "2", "3", "4"] : List String)) :
    tier_to_url tier division page = .error .tierDivisionConflict := by
  simp only [List.mem_cons, List.not_mem_nil, or_false] at htop hdiv
  rcases hdiv with rfl | rfl | rfl | rfl <;>
    rcases htop with h | h | h <;>
      (unfold tier_to_url; rw [h]; rfl)

/-- C8 witness: tier "Master" (upper-case M) with division "2" conflicts. -/
theorem C8_witness : tier_to_url "Master" "2" "1" = .error .tierDivisionConflict :=
  C8_conflict "Master" "2" "1" (by decide) (by decide)

/-- A lookup whose first scripted response has status 200 completes in one
request with no sleep, one counter increment, and the body's identifiers. -/
theorem get_id_summoner_first_200 (r : LookupResponse) (rest : List LookupResponse)
    (h : r.status = 200) :
    get_id_summoner (r :: rest) =
      { requests := 1, sleep := 0, counterInc := 1, outcome := .ok r.puuid r.accountId } := by
  simp [get_id_summoner, h]

/-- When every entry's first scripted lookup response is a 200, the
resolution loop issues one request per entry, sleeps 0 seconds, increments
the counter once per entry, resolves every entry in listing order, and hits
no failure. -/
theorem resolve_entries_all_ok (lookups : String → List LookupResponse) (region : String) :
    ∀ es : List LadderEntry,
      (∀ e ∈ es, ∃ r rest, lookups e.summonerId = r :: rest ∧ r.status = 200) →
      resolve_entries lookups region es =
        { requests := es.length, sleep := 0, counterInc := es.length,
          records := es.map (expectedRecord lookups region), failure := none } := by
  intro es
  induction es with
  | nil => intro _; rfl
  | cons e rest ih =>
    intro hlk
    obtain ⟨r, tl, hr, h200⟩ := hlk e (List.mem_cons_self _ _)
    have hrun : get_id_summoner (lookups e.summonerId) =
        { requests := 1, sleep := 0, counterInc := 1, outcome := .ok r.puuid r.accountId } := by
      rw [hr]; exact get_id_summoner_first_200 r tl h200
    have hrec : expectedRecord lookups region e =
        ⟨r.puuid, e.summonerId, r.accountId, e.summonerName, region⟩ := by
      simp [expectedRecord, hr]
    have ihh := ih (fun x hx => hlk x (List.mem_cons_of_mem _ hx))
    simp [resolve_entries, hrun, ihh, hrec, Nat.add_comm]

/-- C1: for a listing response with N entries, every per-player lookup
succeeding with status 200 on its first attempt, the orchestrator assembles
exactly N PlayerRecords of shape (puuid, summonerId, accountId,
summonerName, region), in listing order, each tagged with the configured
region, and issues exactly N+1 HTTP requests (1 listing + N lookups). -/
theorem C1_resolution (region tier : String) (listing : ListingResponse)
    (lookups : String → List LookupResponse) (es : List LadderEntry) (u : String)
    (hurl : create_tier_url region tier = .ok u)
    (hstatus : listing.status = 200)
    (hentries : listing.entries = some es)
    (hlk : ∀ e ∈ es, ∃ r rest, lookups e.summonerId = r :: rest ∧ r.status = 200) :
    (create_summoner_to_id_table listing lookups region tier).formattedData =
      es.map (expectedRecord lookups region) ∧
    (create_summoner_to_id_table listing lookups region tier).formattedData.length = es.length ∧
    (create_summoner_to_id_table listing lookups region tier).httpRequests = es.length + 1 ∧
    (create_summoner_to_id_table listing lookups region tier).lookupRequests = es.length ∧
    ∀ p ∈ (create_summoner_to_id_table listing lookups region tier).formattedData,
      p.region = region := by
  have hres := resolve_entries_all_ok lookups region es hlk
  have hregion : ∀ e : LadderEntry, (expectedRecord lookups region e).region = region := by
    intro e
    cases h : lookups e.summonerId <;> simp [expectedRecord, h]
  simp [create_summoner_to_id_table, hurl, hstatus, hentries, hres]
  cases hins : insert_into_table (List.map (PlayerRecord.toRow ∘ expectedRecord lookups region) es) with
  | error err =>
    simp [hins, Nat.add_comm]
    exact fun e _ => hregion e
  | ok rows =>
    simp [hins, Nat.add_comm]
    exact fun e _ => hregion e

/-- C1 witness: the mocked 3-entry listing with three distinct 200 lookups
yields 3 records in listing order, region "NA", and 4 total requests. -/
theorem C1_witness :
    (create_summoner_to_id_table
        { status := 200, entries := some [⟨"s1", "n1"⟩, ⟨"s2", "n2"⟩, ⟨"s3", "n3"⟩] }
        (fun s =>
          if s = "s1" then [{ status := 200, retryAfter := 0, puuid := "p1", accountId := "a1" }]
          else if s = "s2" then [{ status := 200, retryAfter := 0, puuid := "p2", accountId := "a2" }]
          else [{ status := 200, retryAfter := 0, puuid := "p3", accountId := "a3" }])
        "NA" "Master").formattedData =
      ([⟨"s1", "n1"⟩, ⟨"s2", "n2"⟩, ⟨"s3", "n3"⟩] : List LadderEntry).map
        (expectedRecord
          (fun s =>
            if s = "s1" then [{ status := 200, retryAfter := 0, puuid := "p1", accountId := "a1" }]
            else if s = "s2" then [{ status := 200, retryAfter := 0, puuid := "p2", accountId := "a2" }]
            else [{ status := 200, retryAfter := 0, puuid := "p3", accountId := "a3" }]) "NA") ∧
    (create_summoner_to_id_table
        { status := 200, entries := some [⟨"s1", "n1"⟩, ⟨"s2", "n2"⟩, ⟨"s3", "n3"⟩] }
        (fun s =>
          if s = "s1" then [{ status := 200, retryAfter := 0, puuid := "p1", accountId := "a1" }]
          else if s = "s2" then [{ status := 200, retryAfter := 0, puuid := "p2", accountId := "a2" }]
          else [{ status := 200, retryAfter := 0, puuid := "p3", accountId := "a3" }])
        "NA" "Master").formattedData.length =
      ([⟨"s1", "n1"⟩, ⟨"s2", "n2"⟩, ⟨"s3", "n3"⟩] : List LadderEntry).length ∧
    (create_summoner_to_id_table
        { status := 200, entries := some [⟨"s1", "n1"⟩, ⟨"s2", "n2"⟩, ⟨"s3", "n3"⟩] }
        (fun s =>
          if s = "s1" then [{ status := 200, retryAfter := 0, puuid := "p1", accountId := "a1" }]
          else if s = "s2" then [{ status := 200, retryAfter := 0, puuid := "p2", accountId := "a2" }]
          else [{ status := 200, retryAfter := 0, puuid := "p3", accountId := "a3" }])
        "NA" "Master").httpRequests =
      ([⟨"s1", "n1"⟩, ⟨"s2", "n2"⟩, ⟨"s3", "n3"⟩] : List LadderEntry).length + 1 ∧
    (create_summoner_to_id_table
        { status := 200, entries := some [⟨"s1", "n1"⟩, ⟨"s2", "n2"⟩, ⟨"s3", "n3"⟩] }
        (fun s =>
          if s = "s1" then [{ status := 200, retryAfter := 0, puuid := "p1", accountId := "a1" }]
          else if s = "s2" then [{ status := 200, retryAfter := 0, puuid := "p2", accountId := "a2" }]
          else [{ status := 200, retryAfter := 0, puuid := "p3", accountId := "a3" }])
        "NA" "Master").lookupRequests =
      ([⟨"s1", "n1"⟩, ⟨"s2", "n2"⟩, ⟨"s3", "n3"⟩] : List LadderEntry).length ∧
    ∀ p ∈ (create_summoner_to_id_table
        { status := 200, entries := some [⟨"s1", "n1"⟩, ⟨"s2", "n2"⟩, ⟨"s3", "n3"⟩] }
        (fun s =>
          if s = "s1" then [{ status := 200, retryAfter := 0, puuid := "p1", accountId := "a1" }]
          else if s = "s2" then [{ status := 200, retryAfter := 0, puuid := "p2", accountId := "a2" }]
          else [{ status := 200, retryAfter := 0, puuid := "p3", accountId := "a3" }])
        "NA" "Master").formattedData, p.region = "NA" :=
  C1_resolution "NA" "Master"
    { status := 200, entries := some [⟨"s1", "n1"⟩, ⟨"s2", "n2"⟩, ⟨"s3", "n3"⟩] }
    (fun s =>
      if s = "s1" then [{ status := 200, retryAfter := 0, puuid := "p1", accountId := "a1" }]
      else if s = "s2" then [{ status := 200, retryAfter := 0, puuid := "p2", accountId := "a2" }]
      else [{ status := 200, retryAfter := 0, puuid := "p3", accountId := "a3" }])
    [⟨"s1", "n1"⟩, ⟨"s2", "n2"⟩, ⟨"s3", "n3"⟩]
    "https://na1.api.riotgames.com/lol/league/v4/masterleagues/by-queue/RANKED_SOLO_5x5"
    (by decide) rfl rfl
    (by intro e he; fin_cases he <;> exact ⟨_, _, rfl, rfl⟩)

/-- C2 counterexample: a ladder-listing response with status 429 is treated
as a fatal non-200 — the run stops after exactly 1 HTTP request with 0
seconds slept, instead of sleeping and retrying as the claim states for
every authenticated GET. -/
theorem C2_counterexample :
    create_summoner_to_id_table { status := 429, entries := some [] } (fun _ => []) "NA" "Master" =
      { httpRequests := 1, lookupRequests := 0, counterInc := 0, sleep := 0,
        formattedData := [], insertedRows := [],
        outcome := .failed (.unexpectedStatus 429) } := by decide

/-- C2 (amended): only the per-player lookup retries on 429.  For any
number k of consecutive 429 responses followed by a 200, `get_id_summoner`
issues k+1 requests, sleeps the sum of each server-supplied Retry-After plus
the one-second margin, and returns the final body — no retry cap.  The
ladder-listing fetch instead treats 429 as fatal: one request, no sleep, no
retry. -/
theorem C2_corrected :
    (∀ (rs : List LookupResponse) (final : LookupResponse),
      (∀ r ∈ rs, r.status = 429) → final.status = 200 →
      get_id_summoner (rs ++ [final]) =
        { requests := rs.length + 1,
          sleep := (rs.map (fun r => r.retryAfter + 1)).sum,
          counterInc := 1, outcome := .ok final.puuid final.accountId }) ∧
    (∀ (listing : ListingResponse) (lookups : String → List LookupResponse)
        (region tier u : String), create_tier_url region tier = .ok u →
      listing.status = 429 →
      create_summoner_to_id_table listing lookups region tier =
        { httpRequests := 1, lookupRequests := 0, counterInc := 0, sleep := 0,
          formattedData := [], insertedRows := [],
          outcome := .failed (.unexpectedStatus 429) }) := by
  constructor
  · intro rs final
    induction rs with
    | nil =>
      intro _ h200
      simp [get_id_summoner, h200]
    | cons r rest ih =>
      intro h429 h200
      have hr : r.status = 429 := h429 r (List.mem_cons_self _ _)
      have ihh := ih (fun x hx => h429 x (List.mem_cons_of_mem _ hx)) h200
      simp [get_id_summoner, hr, ihh, Nat.add_comm]
  · intro listing lookups region tier u hurl hstat
    simp [create_summoner_to_id_table, hurl, hstat]

/-- C2 witness: one 429 (Retry-After 2) followed by a 200 gives two
requests and 3 seconds slept; a 429 listing terminates after one request. -/
theorem C2_witness :
    (get_id_summoner
        [{ status := 429, retryAfter := 2, puuid := "x", accountId := "y" },
         { status := 200, retryAfter := 0, puuid := "p", accountId := "a" }] =
      { requests :=
          [({ status := 429, retryAfter := 2, puuid := "x", accountId := "y" } : LookupResponse)].length + 1,
        sleep :=
          ([({ status := 429, retryAfter := 2, puuid := "x", accountId := "y" } : LookupResponse)].map
            (fun r => r.retryAfter + 1)).sum,
        counterInc := 1, outcome := .ok "p" "a" }) ∧
    create_summoner_to_id_table { status := 429, entries := none } (fun _ => []) "NA" "Master" =
      { httpRequests := 1, lookupRequests := 0, counterInc := 0, sleep := 0,
        formattedData := [], insertedRows := [],
        outcome := .failed (.unexpectedStatus 429) } :=
  ⟨C2_corrected.1
      [{ status := 429, retryAfter := 2, puuid := "x", accountId := "y" }]
      { status := 200, retryAfter := 0, puuid := "p", accountId := "a" }
      (by intro r hr; fin_cases hr; rfl) rfl,
    C2_corrected.2 { status := 429, entries := none } (fun _ => []) "NA" "Master"
      "https://na1.api.riotgames.com/lol/league/v4/masterleagues/by-queue/RANKED_SOLO_5x5"
      (by decide) rfl⟩

/-- C4: a 200 listing response lacking the `entries` field makes the
orchestrator fail with the MalformedResponse error after the single listing
request, with zero lookup requests and zero rows inserted into storage. -/
theorem C4_malformed (listing : ListingResponse) (lookups : String → List LookupResponse)
    (region tier u : String)
    (hurl : create_tier_url region tier = .ok u)
    (hstatus : listing.status = 200)
    (hentries : listing.entries = none) :
    create_summoner_to_id_table listing lookups region tier =
      { httpRequests := 1, lookupRequests := 0, counterInc := 0, sleep := 0,
        formattedData := [], insertedRows := [],
        outcome := .failed .malformedResponse } := by
  simp [create_summoner_to_id_table, hurl, hstatus, hentries]

/-- C4 witness: the concrete entries-less 200 listing fails with
MalformedResponse, 1 request, nothing inserted. -/
theorem C4_witness :
    create_summoner_to_id_table { status := 200, entries := none } (fun _ => []) "NA" "Master" =
      { httpRequests := 1, lookupRequests := 0, counterInc := 0, sleep := 0,
        formattedData := [], insertedRows := [],
        outcome := .failed .malformedResponse } :=
  C4_malformed { status := 200, entries := none } (fun _ => []) "NA" "Master"
    "https://na1.api.riotgames.com/lol/league/v4/masterleagues/by-queue/RANKED_SOLO_5x5"
    (by decide) rfl rfl

/-- A lookup chain increments `REQUESTS_COUNTER` exactly once when it ends
in a 200 and never otherwise. -/
theorem get_id_summoner_counter (rs : List LookupResponse) :
    (get_id_summoner rs).counterInc = counterOfOutcome (get_id_summoner rs).outcome := by
  induction rs with
  | nil => rfl
  | cons r rest ih =>
    by_cases h429 : r.status = 429
    · simp [get_id_summoner, h429, ih]
    · by_cases h200 : r.status = 200
      · simp [get_id_summoner, h429, h200, counterOfOutcome]
      · simp [get_id_summoner, h429, h200, counterOfOutcome]

/-- Across the resolution loop the counter increments equal the number of
records resolved so far (one per completed 200 lookup). -/
theorem resolve_entries_counter (lookups : String → List LookupResponse) (region : String) :
    ∀ es : List LadderEntry,
      (resolve_entries lookups region es).counterInc =
        (resolve_entries lookups region es).records.length := by
  intro es
  induction es with
  | nil => rfl
  | cons e rest ih =>
    have hc := get_id_summoner_counter (lookups e.summonerId)
    rcases ho : (get_id_summoner (lookups e.summonerId)).outcome with ⟨p, a⟩ | code
    · rw [ho] at hc
      simp [resolve_entries, ho, hc, counterOfOutcome, ih, Nat.add_comm]
    · rw [ho] at hc
      simp [resolve_entries, ho, hc, counterOfOutcome]
    · rw [ho] at hc
      simp [resolve_entries, ho, hc, counterOfOutcome]

/-- C9: `REQUESTS_COUNTER` counts exactly the per-player lookups completed
with status 200: a lookup chain contributes 1 exactly when it ends in a 200,
a rate-limited (429) attempt contributes nothing, and over a whole
orchestrator run the counter equals the number of resolved records — the
listing fetch never contributes. -/
theorem C9_counter :
    (∀ rs : List LookupResponse,
      (get_id_summoner rs).counterInc = counterOfOutcome (get_id_summoner rs).outcome) ∧
    (∀ (r : LookupResponse) (rs : List LookupResponse), r.status = 429 →
      (get_id_summoner (r :: rs)).counterInc = (get_id_summoner rs).counterInc) ∧
    (∀ (listing : ListingResponse) (lookups : String → List LookupResponse)
        (region tier : String),
      (create_summoner_to_id_table listing lookups region tier).counterInc =
        (create_summoner_to_id_table listing lookups region tier).formattedData.length) := by
  refine ⟨get_id_summoner_counter, ?_, ?_⟩
  · intro r rs h
    simp [get_id_summoner, h]
  · intro listing lookups region tier
    rcases hurl : create_tier_url region tier with e | v
    · simp [create_summoner_to_id_table, hurl]
    · by_cases hs : (listing.status != 200) = true
      · simp [create_summoner_to_id_table, hurl, hs]
      · rcases he : listing.entries with _ | es
        · simp [create_summoner_to_id_table, hurl, hs, he]
        · have hrc := resolve_entries_counter lookups region es
          rcases hf : (resolve_entries lookups region es).failure with _ | out
          · cases hins : insert_into_table ((resolve_entries lookups region es).records.map PlayerRecord.toRow) with
            | error err => simp [create_summoner_to_id_table, hurl, hs, he, hf, hins, hrc]
            | ok rows => simp [create_summoner_to_id_table, hurl, hs, he, hf, hins, hrc]
          · simp [create_summoner_to_id_table, hurl, hs, he, hf, hrc]

/-- C9 witness: prepending a 429 attempt leaves the counter contribution of
the remaining script unchanged. -/
theorem C9_witness :
    (get_id_summoner
        [{ status := 429, retryAfter := 2, puuid := "x", accountId := "y" },
         { status := 200, retryAfter := 0, puuid := "p", accountId := "a" }]).counterInc =
      (get_id_summoner
        [{ status := 200, retryAfter := 0, puuid := "p", accountId := "a" }]).counterInc :=
  C9_counter.2.1 { status := 429, retryAfter := 2, puuid := "x", accountId := "y" }
    [{ status := 200, retryAfter := 0, puuid := "p", accountId := "a" }] rfl

/-- C10: `insert_into_table` on an empty row list raises the IndexError
from `data[0]` instead of completing as a zero-row insert, so a run whose
listing resolves zero entries fails (outcome IndexError, nothing persisted)
rather than finishing successfully. -/
theorem C10_empty_insert :
    (insert_into_table [] = .error .indexError) ∧
    (∀ (listing : ListingResponse) (lookups : String → List LookupResponse)
        (region tier u : String), create_tier_url region tier = .ok u →
      listing.status = 200 → listing.entries = some [] →
      create_summoner_to_id_table listing lookups region tier =
        { httpRequests := 1, lookupRequests := 0, counterInc := 0, sleep := 0,
          formattedData := [], insertedRows := [],
          outcome := .failed .indexError }) := by
  constructor
  · rfl
  · intro listing lookups region tier u hurl hstatus hentries
    simp [create_summoner_to_id_table, hurl, hstatus, hentries, resolve_entries,
      insert_into_table]

/-- C10 witness: a 200 listing with an empty `entries` list ends with the
IndexError outcome after the single listing request, nothing persisted. -/
theorem C10_witness :
    create_summoner_to_id_table { status := 200, entries := some [] } (fun _ => []) "NA" "Master" =
      { httpRequests := 1, lookupRequests := 0, counterInc := 0, sleep := 0,
        formattedData := [], insertedRows := [],
        outcome := .failed .indexError } :=
  C10_empty_insert.2 { status := 200, entries := some [] } (fun _ => []) "NA" "Master"
    "https://na1.api.riotgames.com/lol/league/v4/masterleagues/by-queue/RANKED_SOLO_5x5"
    (by decide) rfl rfl

end LeagueAnalyzer
